import Mathlib

/-!
Shallow embedding of the loans-app availability-service core:
the device-availability entity and its pure transition functions,
the status-reconciliation use case (updateAvailabilityStatus), the
reservation-event adapter, the delete use case over the Cosmos adapter,
and the outbox dispatcher. Machine dates are modelled as Nat instants;
stores are modelled as lists of records; fallible infrastructure calls
are modelled with explicit failure injection.
-/

/-- The closed status enumeration of the availability entity
(the TS enum values are strings at runtime, so statuses are embedded
as strings and validity is membership in this list). -/
def availabilityStatusValues : List String :=
  ["Available", "Unavailable", "Maintenance", "Retired", "Lost"]

/-- Whitespace recognizer for the JS trim model (ASCII whitespace). -/
def jsIsWhitespace (c : Char) : Bool :=
  c == ' ' || c == '\t' || c == '\n' || c == '\r'

/-- Drops leading and trailing whitespace from a character list. -/
def trimChars (l : List Char) : List Char :=
  ((l.dropWhile jsIsWhitespace).reverse.dropWhile jsIsWhitespace).reverse

/-- Model of the JS String.prototype.trim call over ASCII whitespace,
defined structurally so that concrete instances evaluate. -/
def jsTrim (s : String) : String :=
  String.mk (trimChars s.data)

/-- The availability record for a device (device-availability entity).
A missing reservationId (TS undefined) is `none`. -/
structure DeviceAvailability where
  id : String
  deviceId : String
  status : String
  reservationId : Option String
  lastCheckedAt : Nat
  updatedAt : Nat
deriving Repr, DecidableEq

/-- Field-tagged validation error raised by the entity functions. -/
structure DeviceAvailabilityError where
  field : String
  message : String
deriving Repr, DecidableEq

/-- Parameters of createDeviceAvailability; status and reservationId optional. -/
structure CreateDeviceAvailabilityParams where
  deviceId : String
  status : Option String
  reservationId : Option String
deriving Repr, DecidableEq

/-- The three-way TS value for an optional reservationId parameter of the
update path: absent (undefined), explicit null, or a string value. -/
inductive ResParam where
  | omitted
  | nullValue
  | value (s : String)
deriving Repr, DecidableEq

/-- Parameters of updateDeviceAvailability. -/
structure UpdateDeviceAvailabilityParams where
  status : Option String
  reservationId : ResParam
deriving Repr, DecidableEq

/-- Validation of the entity: device id non-empty after trimming and status
inside the closed enumeration, in that order. -/
def validateDeviceAvailability (deviceId : String) (status : String) :
    Except DeviceAvailabilityError Unit :=
  if jsTrim deviceId = "" then
    .error ⟨"deviceId", "Device ID must be a non-empty string."⟩
  else if status ∉ availabilityStatusValues then
    .error ⟨"status", "Status must be a valid AvailabilityStatus."⟩
  else
    .ok ()

/-- Creates a new device availability record: status defaults to Available,
the record id is the raw deviceId parameter while the deviceId field is the
trimmed parameter, the reservation id is trimmed when present, and both
timestamps are stamped to now. -/
def createDeviceAvailability (params : CreateDeviceAvailabilityParams) (now : Nat) :
    Except DeviceAvailabilityError DeviceAvailability :=
  let status := params.status.getD "Available"
  match validateDeviceAvailability params.deviceId status with
  | .error e => .error e
  | .ok _ =>
    .ok { id := params.deviceId
          deviceId := jsTrim params.deviceId
          status := status
          reservationId := params.reservationId.map jsTrim
          lastCheckedAt := now
          updatedAt := now }

/-- The TS conditional for the updated reservationId: explicit null clears
the field, a value replaces it, an omitted parameter keeps the existing
value (the nullish-coalescing chain of the source). -/
def applyResParam (p : ResParam) (existing : Option String) : Option String :=
  match p with
  | ResParam.nullValue => none
  | ResParam.value s => some s
  | ResParam.omitted => existing

/-- Updates an existing record: validates the existing deviceId against the
new status; the reservationId follows applyResParam; both timestamps
refresh. -/
def updateDeviceAvailability (existing : DeviceAvailability)
    (params : UpdateDeviceAvailabilityParams) (now : Nat) :
    Except DeviceAvailabilityError DeviceAvailability :=
  let newStatus := params.status.getD existing.status
  match validateDeviceAvailability existing.deviceId newStatus with
  | .error e => .error e
  | .ok _ =>
    .ok { existing with
          status := newStatus
          reservationId := applyResParam params.reservationId existing.reservationId
          lastCheckedAt := now
          updatedAt := now }

/-- Availability store modelled as a list of records; the Cosmos adapter
reads and writes documents keyed by the record id. Point read by id. -/
def getByDeviceId (store : List DeviceAvailability) (deviceId : String) :
    Option DeviceAvailability :=
  store.find? (fun r => r.id == deviceId)

/-- Cosmos upsert: replace the document with the same id, else insert. -/
def upsertRecord (store : List DeviceAvailability) (r : DeviceAvailability) :
    List DeviceAvailability :=
  match store with
  | [] => [r]
  | x :: xs => if x.id == r.id then r :: xs else x :: upsertRecord xs r

/-- The JS strict equality existing.reservationId === reservationId, where
the left side is a string or undefined and the right side is the three-way
parameter: undefined equals only undefined (null differs from undefined). -/
def jsEqResId : Option String → ResParam → Bool
  | none, ResParam.omitted => true
  | some s, ResParam.value t => s == t
  | _, _ => false

/-- The TS expression reservationId converted for the create path:
null and undefined both become an absent create parameter. -/
def resParamToCreate : ResParam → Option String
  | ResParam.omitted => none
  | ResParam.nullValue => none
  | ResParam.value s => some s

/-- Failure injection for the infrastructure dependencies of the use case:
some message means the corresponding call throws with that message. -/
structure FailSpec where
  getErr : Option String
  saveErr : Option String
  publishErr : Option String
deriving Repr, DecidableEq

/-- The environment in which every infrastructure call succeeds. -/
def noFail : FailSpec := ⟨none, none, none⟩

/-- Payload of the Availability.Changed outbound event. -/
structure AvailabilityChangedEventData where
  deviceId : String
  previousStatus : Option String
  newStatus : String
  reservationId : Option String
  updatedAt : Nat
deriving Repr, DecidableEq

/-- An event handed to the event publisher. -/
structure PublishedEvent where
  topic : String
  eventType : String
  subject : String
  data : AvailabilityChangedEventData
deriving Repr, DecidableEq

/-- The Availability.Changed event built by the use case from the previous
status and the saved record. -/
def mkChangedEvent (previousStatus : Option String) (saved : DeviceAvailability) :
    PublishedEvent :=
  { topic := "Availability"
    eventType := "Availability.Changed"
    subject := saved.deviceId
    data := { deviceId := saved.deviceId
              previousStatus := previousStatus
              newStatus := saved.status
              reservationId := saved.reservationId
              updatedAt := saved.updatedAt } }

/-- Result shape of updateAvailabilityStatus. -/
structure UpdateAvailabilityStatusResult where
  success : Bool
  data : Option DeviceAvailability
  error : Option String
  code : Option String
deriving Repr, DecidableEq

/-- Full observable outcome of one updateAvailabilityStatus call: the
returned result, the store afterwards, the list of records saved, and the
list of events handed to the publisher. -/
structure UpdateOutcome where
  result : UpdateAvailabilityStatusResult
  store : List DeviceAvailability
  saves : List DeviceAvailability
  events : List PublishedEvent
deriving Repr, DecidableEq

/-- Tail of the use case: publish the Availability.Changed event when the
previous status differs from the saved status (null differs from every
string). Errors carry the store and saves that already took effect. -/
def finishPublish (fail : FailSpec) (store : List DeviceAvailability)
    (saves : List DeviceAvailability) (previousStatus : Option String)
    (saved : DeviceAvailability) :
    Except (String × List DeviceAvailability × List DeviceAvailability)
      (List DeviceAvailability × List DeviceAvailability × List PublishedEvent ×
        DeviceAvailability) :=
  if previousStatus ≠ some saved.status then
    match fail.publishErr with
    | some e => .error (e, store, saves)
    | none => .ok (store, saves, [mkChangedEvent previousStatus saved], saved)
  else
    .ok (store, saves, [], saved)

/-- Body of updateAvailabilityStatus before the surrounding catch: read the
current record; if present and both status and reservation id (under JS
strict equality) already match, skip with no write and no event; otherwise
build via update or create, save, and publish on status change. -/
def updateAvailabilityStatusCore (fail : FailSpec) (store : List DeviceAvailability)
    (now : Nat) (deviceId : String) (newStatus : String) (reservationId : ResParam) :
    Except (String × List DeviceAvailability × List DeviceAvailability)
      (List DeviceAvailability × List DeviceAvailability × List PublishedEvent ×
        DeviceAvailability) :=
  match fail.getErr with
  | some e => .error (e, store, [])
  | none =>
    match getByDeviceId store deviceId with
    | some existing =>
      if existing.status == newStatus && jsEqResId existing.reservationId reservationId then
        .ok (store, [], [], existing)
      else
        match updateDeviceAvailability existing ⟨some newStatus, reservationId⟩ now with
        | .error err => .error (err.message, store, [])
        | .ok updated =>
          match fail.saveErr with
          | some e => .error (e, store, [])
          | none =>
            finishPublish fail (upsertRecord store updated) [updated]
              (some existing.status) updated
    | none =>
      match createDeviceAvailability ⟨deviceId, some newStatus, resParamToCreate reservationId⟩ now with
      | .error err => .error (err.message, store, [])
      | .ok newRecord =>
        match fail.saveErr with
        | some e => .error (e, store, [])
        | none =>
          finishPublish fail (upsertRecord store newRecord) [newRecord] none newRecord

/-- The reconciliation use case: the catch converts every thrown failure
into a failed result with code INTERNAL_ERROR; the success result carries
the saved (or existing) record and no code. -/
def updateAvailabilityStatus (fail : FailSpec) (store : List DeviceAvailability)
    (now : Nat) (deviceId : String) (newStatus : String) (reservationId : ResParam) :
    UpdateOutcome :=
  match updateAvailabilityStatusCore fail store now deviceId newStatus reservationId with
  | .ok (store2, saves, events, saved) =>
    { result := { success := true, data := some saved, error := none, code := none }
      store := store2, saves := saves, events := events }
  | .error (msg, store2, saves) =>
    { result := { success := false, data := none, error := some msg,
                  code := some "INTERNAL_ERROR" }
      store := store2, saves := saves, events := [] }

/-- Reservation event payload fields used by the adapter. -/
structure ReservationEventData where
  reservationId : String
  deviceId : String
deriving Repr, DecidableEq

/-- How a reservation-event invocation ends: dropped for a missing device
id, dropped for an unhandled event type, completed, suppressed after a
NOT_FOUND failure, or thrown to trigger redelivery. -/
inductive ReservationOutcome where
  | skippedMissingDevice
  | skippedUnhandled
  | completed
  | suppressedNotFound
  | threw (msg : String)
deriving Repr, DecidableEq

/-- Maps a reservation lifecycle event type to a target status and whether
the reservation reference is cleared; unhandled types map to none. -/
def getAvailabilityFromEvent (eventType : String) : Option (String × Bool) :=
  if eventType == "Reservation.Created" || eventType == "Reservation.Collected" then
    some ("Unavailable", false)
  else if eventType == "Reservation.Returned" || eventType == "Reservation.Cancelled" ||
      eventType == "Reservation.Expired" then
    some ("Available", true)
  else
    none

/-- The reservation-events adapter: validates the payload, maps the event
type, invokes the reconciliation use case, and on a failed result rethrows
unless the result code is NOT_FOUND (which is suppressed). -/
def handleReservationEvent (fail : FailSpec) (store : List DeviceAvailability)
    (now : Nat) (eventType : String) (data : Option ReservationEventData) :
    ReservationOutcome × List DeviceAvailability × List DeviceAvailability ×
      List PublishedEvent :=
  match data with
  | none => (ReservationOutcome.skippedMissingDevice, store, [], [])
  | some d =>
    if d.deviceId == "" then
      (ReservationOutcome.skippedMissingDevice, store, [], [])
    else
      match getAvailabilityFromEvent eventType with
      | none => (ReservationOutcome.skippedUnhandled, store, [], [])
      | some (status, clearReservation) =>
        let reservationId :=
          if clearReservation then ResParam.nullValue else ResParam.value d.reservationId
        let o := updateAvailabilityStatus fail store now d.deviceId status reservationId
        if o.result.success then
          (ReservationOutcome.completed, o.store, o.saves, o.events)
        else if o.result.code ≠ some "NOT_FOUND" then
          (ReservationOutcome.threw
            ("Failed to update device " ++ d.deviceId ++ ": " ++ (o.result.error.getD "undefined")),
            o.store, o.saves, o.events)
        else
          (ReservationOutcome.suppressedNotFound, o.store, o.saves, o.events)

/-- Result shape of deleteAvailability. -/
structure DeleteAvailabilityResult where
  success : Bool
  error : Option String
deriving Repr, DecidableEq

/-- Cosmos point delete by id: a 404 for an absent document is absorbed
(idempotent delete); an injected infrastructure failure is rethrown. -/
def cosmosDelete (fail : Option String) (store : List DeviceAvailability)
    (deviceId : String) : Except String (List DeviceAvailability) :=
  match fail with
  | some e => .error e
  | none =>
    if store.any (fun r => r.id == deviceId) then
      .ok (store.filter (fun r => !(r.id == deviceId)))
    else
      .ok store

/-- The delete use case: success unless the store throws. -/
def deleteAvailability (fail : Option String) (store : List DeviceAvailability)
    (deviceId : String) : DeleteAvailabilityResult × List DeviceAvailability :=
  match cosmosDelete fail store deviceId with
  | .ok store2 => (⟨true, none⟩, store2)
  | .error e => (⟨false, some e⟩, store)

/-- An outbox message; data is opaque and modelled as a string. -/
structure OutboxMessage where
  id : String
  topic : String
  eventType : String
  subject : String
  data : String
  dataVersion : String
  eventTime : Nat
  processed : Bool
  processedAt : Option Nat
  error : Option String
  retryCount : Nat
deriving Repr, DecidableEq

/-- Modelled from the spec: the outbox store implementation is not among
the sources (only the OutboxRepo interface is); listUnprocessed returns up
to batchSize unprocessed messages in store order. -/
def listUnprocessed (store : List OutboxMessage) (batchSize : Nat) :
    List OutboxMessage :=
  (store.filter (fun m => !m.processed)).take batchSize

/-- Modelled from the spec: markAsProcessed marks the message with the
given id as terminally processed, stamping processedAt. -/
def markAsProcessed (store : List OutboxMessage) (msgId : String) (now : Nat) :
    List OutboxMessage :=
  store.map (fun m =>
    if m.id = msgId then { m with processed := true, processedAt := some now } else m)

/-- Modelled from the spec: markAsFailed records the error string on the
message with the given id and increments its retry count, leaving the
processed flag untouched. -/
def markAsFailed (store : List OutboxMessage) (msgId : String) (err : String) :
    List OutboxMessage :=
  store.map (fun m =>
    if m.id = msgId then { m with error := some err, retryCount := m.retryCount + 1 } else m)

/-- One loop iteration of the dispatcher for a fetched message: publish to
the bus (busFail gives the thrown error message, none for success), then
record the outcome on the outbox store. -/
def dispatchStep (busFail : String → Option String) (now : Nat)
    (store : List OutboxMessage) (m : OutboxMessage) : List OutboxMessage :=
  match busFail m.id with
  | none => markAsProcessed store m.id now
  | some err => markAsFailed store m.id err

/-- The outbox dispatcher drain: fetch up to 20 unprocessed messages and
handle each independently; returns the final outbox store and the messages
successfully handed to the bus, in fetch order. -/
def processOutbox (busFail : String → Option String) (store : List OutboxMessage)
    (now : Nat) : List OutboxMessage × List OutboxMessage :=
  let messages := listUnprocessed store 20
  (messages.foldl (dispatchStep busFail now) store,
   messages.filter (fun m => (busFail m.id).isNone))

/-- The per-record effect of dispatching one message, used to reason about
the fold: only the record with the message id is rewritten. -/
def perMessage (busFail : String → Option String) (now : Nat) (m : OutboxMessage)
    (r : OutboxMessage) : OutboxMessage :=
  if r.id = m.id then
    match busFail m.id with
    | none => { r with processed := true, processedAt := some now }
    | some err => { r with error := some err, retryCount := r.retryCount + 1 }
  else r

/-- A record is well formed when its device id survives trimming and its
status is inside the closed enumeration; every record built by the entity
constructors from valid input satisfies this. -/
def wellFormed (r : DeviceAvailability) : Bool :=
  (jsTrim r.deviceId != "") && availabilityStatusValues.contains r.status

theorem validate_ok (d s : String) (hd : jsTrim d ≠ "") (hs : s ∈ availabilityStatusValues) :
    validateDeviceAvailability d s = .ok () := by
  simp [validateDeviceAvailability, hd, hs]

theorem validate_fail_device (d s : String) (hd : jsTrim d = "") :
    validateDeviceAvailability d s =
      .error ⟨"deviceId", "Device ID must be a non-empty string."⟩ := by
  simp [validateDeviceAvailability, hd]

theorem validate_fail_status (d s : String) (hd : jsTrim d ≠ "")
    (hs : s ∉ availabilityStatusValues) :
    validateDeviceAvailability d s =
      .error ⟨"status", "Status must be a valid AvailabilityStatus."⟩ := by
  simp [validateDeviceAvailability, hd, hs]

theorem getByDeviceId_some_id (store : List DeviceAvailability) (d : String)
    (r : DeviceAvailability) (h : getByDeviceId store d = some r) : r.id = d := by
  unfold getByDeviceId at h
  have hb := List.find?_some h
  simpa using hb

theorem getByDeviceId_mem (store : List DeviceAvailability) (d : String)
    (r : DeviceAvailability) (h : getByDeviceId store d = some r) : r ∈ store := by
  unfold getByDeviceId at h
  exact List.mem_of_find?_eq_some h

theorem getByDeviceId_upsert (store : List DeviceAvailability) (r : DeviceAvailability)
    (d : String) (h : r.id = d) : getByDeviceId (upsertRecord store r) d = some r := by
  induction store with
  | nil => simp [upsertRecord, getByDeviceId, List.find?, h]
  | cons x xs ih =>
    by_cases hx : (x.id == r.id) = true
    · simp [upsertRecord, eq_of_beq hx, getByDeviceId, List.find?, h]
    · have hx' : (x.id == r.id) = false := by simpa using hx
      have hxd : (x.id == d) = false := by
        subst h
        exact hx'
      simp only [upsertRecord, hx', if_false, Bool.false_eq_true]
      simpa [getByDeviceId, List.find?, hxd] using ih

theorem wellFormed_iff (r : DeviceAvailability) :
    wellFormed r = true ↔ (jsTrim r.deviceId ≠ "" ∧ r.status ∈ availabilityStatusValues) := by
  simp [wellFormed, List.elem_iff]

theorem finishPublish_noFail (store saves : List DeviceAvailability)
    (prev : Option String) (saved : DeviceAvailability) :
    finishPublish noFail store saves prev saved =
      .ok (store, saves,
        if prev ≠ some saved.status then [mkChangedEvent prev saved] else [], saved) := by
  by_cases h : prev = some saved.status <;> simp [finishPublish, noFail, h]

theorem first_call_spec (store : List DeviceAvailability) (now : Nat) (d S : String)
    (R : ResParam) (hd : jsTrim d ≠ "") (hS : S ∈ availabilityStatusValues)
    (hwf : store.all wellFormed = true) :
    (updateAvailabilityStatus noFail store now d S R).result.success = true ∧
    ∃ rec, (updateAvailabilityStatus noFail store now d S R).result.data = some rec ∧
      rec.status = S ∧
      getByDeviceId (updateAvailabilityStatus noFail store now d S R).store d = some rec ∧
      (updateAvailabilityStatus noFail store now d S R).saves.length ≤ 1 ∧
      (rec.deviceId = jsTrim d ∨ wellFormed rec = true) ∧
      ((updateAvailabilityStatus noFail store now d S R).events =
        if ((getByDeviceId store d).map DeviceAvailability.status) ≠ some rec.status then
          [mkChangedEvent ((getByDeviceId store d).map DeviceAvailability.status) rec]
        else []) := by
  cases heq : getByDeviceId store d with
  | none =>
    have hcreate : createDeviceAvailability ⟨d, some S, resParamToCreate R⟩ now =
        .ok ⟨d, jsTrim d, S, (resParamToCreate R).map jsTrim, now, now⟩ := by
      simp [createDeviceAvailability, validate_ok d S hd hS]
    have hrun : updateAvailabilityStatus noFail store now d S R =
        ⟨⟨true, some ⟨d, jsTrim d, S, (resParamToCreate R).map jsTrim, now, now⟩, none, none⟩,
          upsertRecord store ⟨d, jsTrim d, S, (resParamToCreate R).map jsTrim, now, now⟩,
          [⟨d, jsTrim d, S, (resParamToCreate R).map jsTrim, now, now⟩],
          [mkChangedEvent none ⟨d, jsTrim d, S, (resParamToCreate R).map jsTrim, now, now⟩]⟩ := by
      simp [updateAvailabilityStatus, updateAvailabilityStatusCore, noFail, hcreate, heq,
        finishPublish]
    rw [hrun]
    exact ⟨rfl, ⟨d, jsTrim d, S, (resParamToCreate R).map jsTrim, now, now⟩,
      rfl, rfl, getByDeviceId_upsert store _ d rfl, by simp, Or.inl rfl, by simp⟩
  | some ex =>
    have hwfex : wellFormed ex = true :=
      List.all_eq_true.mp hwf ex (getByDeviceId_mem store d ex heq)
    obtain ⟨hexd, hexs⟩ := (wellFormed_iff ex).mp hwfex
    have hexid : ex.id = d := getByDeviceId_some_id store d ex heq
    by_cases hg : (ex.status == S && jsEqResId ex.reservationId R) = true
    · have hgs : ex.status = S := eq_of_beq (Bool.and_eq_true _ _ |>.mp hg).1
      have hrun : updateAvailabilityStatus noFail store now d S R =
          ⟨⟨true, some ex, none, none⟩, store, [], []⟩ := by
        simp [updateAvailabilityStatus, updateAvailabilityStatusCore, noFail, heq, hg]
      rw [hrun, heq]
      exact ⟨rfl, ex, rfl, hgs, rfl, by simp, Or.inr hwfex, by simp [hgs]⟩
    · have hupd : updateDeviceAvailability ex ⟨some S, R⟩ now =
          .ok { ex with
                status := S
                reservationId := applyResParam R ex.reservationId
                lastCheckedAt := now
                updatedAt := now } := by
        simp [updateDeviceAvailability, validate_ok ex.deviceId S hexd hS]
      have hg2 : (ex.status == S && jsEqResId ex.reservationId R) = false := by
        simpa using hg
      have hrun : updateAvailabilityStatus noFail store now d S R =
          ⟨⟨true, some { ex with
                status := S
                reservationId := applyResParam R ex.reservationId
                lastCheckedAt := now
                updatedAt := now }, none, none⟩,
            upsertRecord store { ex with
                status := S
                reservationId := applyResParam R ex.reservationId
                lastCheckedAt := now
                updatedAt := now },
            [{ ex with
                status := S
                reservationId := applyResParam R ex.reservationId
                lastCheckedAt := now
                updatedAt := now }],
            if ex.status = S then [] else
              [mkChangedEvent (some ex.status)
                { ex with
                  status := S
                  reservationId := applyResParam R ex.reservationId
                  lastCheckedAt := now
                  updatedAt := now }]⟩ := by
        by_cases hss : ex.status = S
        · have hj : jsEqResId ex.reservationId R = false := by
            simpa [hss] using hg2
          simp [updateAvailabilityStatus, updateAvailabilityStatusCore, noFail, heq, hss,
            hj, hupd, finishPublish]
        · simp [updateAvailabilityStatus, updateAvailabilityStatusCore, noFail, heq, hss,
            hupd, finishPublish]
      rw [hrun]
      refine ⟨rfl, _, rfl, rfl, getByDeviceId_upsert store _ d hexid, by simp, ?_, ?_⟩
      · right
        rw [wellFormed_iff]
        exact ⟨hexd, hS⟩
      · by_cases hss : ex.status = S <;> simp [hss]

theorem second_call_spec (store2 : List DeviceAvailability) (now2 : Nat) (d S : String)
    (R : ResParam) (r1 : DeviceAvailability)
    (h : getByDeviceId store2 d = some r1) (hst : r1.status = S)
    (hdv : jsTrim r1.deviceId ≠ "") (hS : S ∈ availabilityStatusValues) :
    (updateAvailabilityStatus noFail store2 now2 d S R).result.success = true ∧
    (updateAvailabilityStatus noFail store2 now2 d S R).events = [] ∧
    (if jsEqResId r1.reservationId R = true then
      (updateAvailabilityStatus noFail store2 now2 d S R).store = store2 ∧
      (updateAvailabilityStatus noFail store2 now2 d S R).saves = []
     else (updateAvailabilityStatus noFail store2 now2 d S R).saves.length = 1) := by
  by_cases hj : jsEqResId r1.reservationId R = true
  · have hrun : updateAvailabilityStatus noFail store2 now2 d S R =
        ⟨⟨true, some r1, none, none⟩, store2, [], []⟩ := by
      simp [updateAvailabilityStatus, updateAvailabilityStatusCore, noFail, h, hst, hj]
    rw [hrun]
    simp [hj]
  · have hj2 : jsEqResId r1.reservationId R = false := by simpa using hj
    have hupd : updateDeviceAvailability r1 ⟨some S, R⟩ now2 =
        .ok { r1 with
              status := S
              reservationId := applyResParam R r1.reservationId
              lastCheckedAt := now2
              updatedAt := now2 } := by
      simp [updateDeviceAvailability, validate_ok r1.deviceId S hdv hS]
    have hrun : updateAvailabilityStatus noFail store2 now2 d S R =
        ⟨⟨true, some { r1 with
              status := S
              reservationId := applyResParam R r1.reservationId
              lastCheckedAt := now2
              updatedAt := now2 }, none, none⟩,
          upsertRecord store2 { r1 with
              status := S
              reservationId := applyResParam R r1.reservationId
              lastCheckedAt := now2
              updatedAt := now2 },
          [{ r1 with
              status := S
              reservationId := applyResParam R r1.reservationId
              lastCheckedAt := now2
              updatedAt := now2 }],
          []⟩ := by
      simp [updateAvailabilityStatus, updateAvailabilityStatusCore, noFail, h, hst, hj2,
        hupd, finishPublish]
    rw [hrun]
    simp [hj2]

/-- C1 counterexample: with no record stored, two identical calls with the
clearing reservation parameter (explicit null) each perform a save — two
saves in total, although after the first call the stored record already has
the requested status and a cleared (absent) reservation id. -/
theorem c1_counterexample :
    (updateAvailabilityStatus noFail [] 0 "d1" "Available" ResParam.nullValue).store =
      [⟨"d1", "d1", "Available", none, 0, 0⟩] ∧
    (updateAvailabilityStatus noFail [] 0 "d1" "Available" ResParam.nullValue).saves.length = 1 ∧
    (updateAvailabilityStatus noFail
        (updateAvailabilityStatus noFail [] 0 "d1" "Available" ResParam.nullValue).store
        1 "d1" "Available" ResParam.nullValue).saves.length = 1 ∧
    (updateAvailabilityStatus noFail
        (updateAvailabilityStatus noFail [] 0 "d1" "Available" ResParam.nullValue).store
        1 "d1" "Available" ResParam.nullValue).events = [] := by
  decide

/-- C1 amended: two successive calls with the same arguments, all
infrastructure succeeding, produce at most one save each (at most two in
total) and at most one outbound event in total; the second call never emits
an event, and it short-circuits with no save exactly when the record stored
after the first call carries a reservation id strictly equal (in the JS
sense, where a cleared or absent reservation differs from the explicit
null parameter) to the requested one. -/
theorem c1_amended (store : List DeviceAvailability) (now1 now2 : Nat) (d S : String)
    (R : ResParam) (hd : jsTrim d = d) (hd0 : d ≠ "")
    (hS : S ∈ availabilityStatusValues) (hwf : store.all wellFormed = true) :
    (updateAvailabilityStatus noFail store now1 d S R).result.success = true ∧
    (updateAvailabilityStatus noFail
        (updateAvailabilityStatus noFail store now1 d S R).store now2 d S R).result.success
      = true ∧
    (updateAvailabilityStatus noFail store now1 d S R).saves.length ≤ 1 ∧
    (updateAvailabilityStatus noFail store now1 d S R).events.length ≤ 1 ∧
    (updateAvailabilityStatus noFail
        (updateAvailabilityStatus noFail store now1 d S R).store now2 d S R).events = [] ∧
    ∃ r1, getByDeviceId (updateAvailabilityStatus noFail store now1 d S R).store d = some r1 ∧
      r1.status = S ∧
      (if jsEqResId r1.reservationId R = true then
        (updateAvailabilityStatus noFail
            (updateAvailabilityStatus noFail store now1 d S R).store now2 d S R).store =
          (updateAvailabilityStatus noFail store now1 d S R).store ∧
        (updateAvailabilityStatus noFail
            (updateAvailabilityStatus noFail store now1 d S R).store now2 d S R).saves = []
       else
        (updateAvailabilityStatus noFail
            (updateAvailabilityStatus noFail store now1 d S R).store now2 d S R).saves.length
          = 1) := by
  have hd' : jsTrim d ≠ "" := by
    rw [hd]
    exact hd0
  obtain ⟨hs1, rec, hdata, hrecS, hfind, hsave1, hdisj, hevents1⟩ :=
    first_call_spec store now1 d S R hd' hS hwf
  have hdv : jsTrim rec.deviceId ≠ "" := by
    rcases hdisj with hdL | hdR
    · rw [hdL, hd]
      rw [hd]
      exact hd0
    · exact ((wellFormed_iff rec).mp hdR).1
  obtain ⟨hs2, hev2, hcase⟩ :=
    second_call_spec (updateAvailabilityStatus noFail store now1 d S R).store now2 d S R rec
      hfind hrecS hdv hS
  refine ⟨hs1, hs2, hsave1, ?_, hev2, rec, hfind, hrecS, hcase⟩
  rw [hevents1]
  by_cases hc : ((getByDeviceId store d).map DeviceAvailability.status) ≠ some rec.status <;>
    simp [hc]

/-- C1 witness: the amended idempotence theorem holds at a concrete input
with a non-null reservation parameter. -/
theorem c1_witness :
    (updateAvailabilityStatus noFail [] 0 "d1" "Unavailable" (ResParam.value "r1")).result.success
      = true ∧
    (updateAvailabilityStatus noFail
        (updateAvailabilityStatus noFail [] 0 "d1" "Unavailable" (ResParam.value "r1")).store
        1 "d1" "Unavailable" (ResParam.value "r1")).events = [] :=
  have h := c1_amended [] 0 1 "d1" "Unavailable" (ResParam.value "r1")
    (by decide) (by decide) (by decide) (by decide)
  ⟨h.1, h.2.2.2.2.1⟩

/-- C2: when every infrastructure call succeeds, the call returns success
and enqueues the Availability.Changed event exactly when the persisted
status differs from the prior status (none when no record existed), the
event carrying the device id, previous status, new status, reservation id
and update timestamp of the saved record. -/
theorem c2_event_on_change (store : List DeviceAvailability) (now : Nat) (d S : String)
    (R : ResParam) (hd : jsTrim d ≠ "") (hS : S ∈ availabilityStatusValues)
    (hwf : store.all wellFormed = true) :
    (updateAvailabilityStatus noFail store now d S R).result.success = true ∧
    ∃ rec, (updateAvailabilityStatus noFail store now d S R).result.data = some rec ∧
      (((getByDeviceId store d).map DeviceAvailability.status) ≠ some rec.status →
        (updateAvailabilityStatus noFail store now d S R).events =
          [mkChangedEvent ((getByDeviceId store d).map DeviceAvailability.status) rec]) ∧
      (((getByDeviceId store d).map DeviceAvailability.status) = some rec.status →
        (updateAvailabilityStatus noFail store now d S R).events = []) := by
  obtain ⟨hs1, rec, hdata, hrecS, hfind, hsave1, hdisj, hevents1⟩ :=
    first_call_spec store now d S R hd hS hwf
  refine ⟨hs1, rec, hdata, ?_, ?_⟩
  · intro hne
    rw [hevents1, if_pos hne]
  · intro hsame
    rw [hevents1, if_neg (by simp [hsame])]

/-- C2 witness: at a concrete input with no prior record the event is
enqueued with previous status none. -/
theorem c2_witness :
    (updateAvailabilityStatus noFail [] 5 "d1" "Maintenance" ResParam.omitted).result.success
      = true ∧
    (updateAvailabilityStatus noFail [] 5 "d1" "Maintenance" ResParam.omitted).events =
      [mkChangedEvent none ⟨"d1", "d1", "Maintenance", none, 5, 5⟩] :=
  have h := c2_event_on_change [] 5 "d1" "Maintenance" ResParam.omitted
    (by decide) (by decide) (by decide)
  have h2 := h.2
  ⟨h.1, by
    obtain ⟨rec, hdata, hne, _⟩ := h2
    have hrec : rec = ⟨"d1", "d1", "Maintenance", none, 5, 5⟩ := by
      have : (updateAvailabilityStatus noFail [] 5 "d1" "Maintenance" ResParam.omitted).result.data
          = some ⟨"d1", "d1", "Maintenance", none, 5, 5⟩ := by decide
      rw [this] at hdata
      exact (Option.some.injEq _ _ ▸ hdata.symm : _)
    subst hrec
    exact hne (by decide)⟩

/-- C6: handling a reservation-created event for an unknown device creates
the record with status Unavailable and the reservation id, and enqueues one
Availability.Changed event with previous status none. -/
theorem c6_end_to_end :
    handleReservationEvent noFail [] 3 "Reservation.Created" (some ⟨"R1", "D1"⟩) =
      (ReservationOutcome.completed,
       [⟨"D1", "D1", "Unavailable", some "R1", 3, 3⟩],
       [⟨"D1", "D1", "Unavailable", some "R1", 3, 3⟩],
       [⟨"Availability", "Availability.Changed", "D1",
          ⟨"D1", none, "Unavailable", some "R1", 3⟩⟩]) := by
  decide

/-- C7: the reservation lifecycle mapping sends Created and Collected to
(Unavailable, keep reservation), Returned, Cancelled and Expired to
(Available, clear reservation), and every other event type to none, in
which case the handler ignores the event without touching the store or
publishing. -/
theorem c7_mapping :
    getAvailabilityFromEvent "Reservation.Created" = some ("Unavailable", false) ∧
    getAvailabilityFromEvent "Reservation.Collected" = some ("Unavailable", false) ∧
    getAvailabilityFromEvent "Reservation.Returned" = some ("Available", true) ∧
    getAvailabilityFromEvent "Reservation.Cancelled" = some ("Available", true) ∧
    getAvailabilityFromEvent "Reservation.Expired" = some ("Available", true) ∧
    ∀ t : String, t ≠ "Reservation.Created" → t ≠ "Reservation.Collected" →
      t ≠ "Reservation.Returned" → t ≠ "Reservation.Cancelled" → t ≠ "Reservation.Expired" →
      getAvailabilityFromEvent t = none ∧
      ∀ (fail : FailSpec) (store : List DeviceAvailability) (now : Nat)
        (dta : ReservationEventData), dta.deviceId ≠ "" →
        handleReservationEvent fail store now t (some dta) =
          (ReservationOutcome.skippedUnhandled, store, [], []) := by
  refine ⟨by decide, by decide, by decide, by decide, by decide, ?_⟩
  intro t h1 h2 h3 h4 h5
  have hmap : getAvailabilityFromEvent t = none := by
    simp [getAvailabilityFromEvent, h1, h2, h3, h4, h5]
  refine ⟨hmap, ?_⟩
  intro fail store now dta hdev
  simp [handleReservationEvent, hdev, hmap]

/-- C7 witness: a concrete unhandled event type is ignored. -/
theorem c7_witness :
    getAvailabilityFromEvent "Reservation.Deleted" = none ∧
    handleReservationEvent noFail [] 0 "Reservation.Deleted" (some ⟨"r1", "d1"⟩) =
      (ReservationOutcome.skippedUnhandled, [], [], []) :=
  have h := c7_mapping.2.2.2.2.2 "Reservation.Deleted"
    (by decide) (by decide) (by decide) (by decide) (by decide)
  ⟨h.1, h.2 noFail [] 0 ⟨"r1", "d1"⟩ (by decide)⟩

/-- C8: deleting with no stored record succeeds and leaves the store
unchanged, and deleting the same device twice in a row (with the store
healthy) succeeds both times and leaves no record for the device. -/
theorem c8_delete_idempotent :
    (∀ (store : List DeviceAvailability) (d : String), getByDeviceId store d = none →
      (deleteAvailability none store d).1.success = true ∧
      (deleteAvailability none store d).2 = store) ∧
    (∀ (store : List DeviceAvailability) (d : String),
      (deleteAvailability none store d).1.success = true ∧
      (deleteAvailability none (deleteAvailability none store d).2 d).1.success = true ∧
      getByDeviceId (deleteAvailability none (deleteAvailability none store d).2 d).2 d
        = none) := by
  have habs : ∀ (store : List DeviceAvailability) (d : String),
      store.any (fun r => r.id == d) = false → deleteAvailability none store d = (⟨true, none⟩, store) := by
    intro store d h
    simp [deleteAvailability, cosmosDelete, h]
  have hfind_none : ∀ (store : List DeviceAvailability) (d : String),
      getByDeviceId store d = none → store.any (fun r => r.id == d) = false := by
    intro store d h
    rw [List.any_eq_false]
    intro r hr
    have := List.find?_eq_none.mp h r hr
    simpa using this
  constructor
  · intro store d h
    rw [habs store d (hfind_none store d h)]
    exact ⟨rfl, rfl⟩
  · intro store d
    by_cases h : store.any (fun r => r.id == d) = true
    · have hdel : deleteAvailability none store d =
          (⟨true, none⟩, store.filter (fun r => !(r.id == d))) := by
        simp [deleteAvailability, cosmosDelete, h]
      rw [hdel]
      have hclean : getByDeviceId (store.filter (fun r => !(r.id == d))) d = none := by
        rw [getByDeviceId, List.find?_eq_none]
        intro r hr
        have := List.of_mem_filter hr
        simpa using this
      have h2 : (store.filter (fun r => !(r.id == d))).any (fun r => r.id == d) = false := by
        rw [List.any_eq_false]
        intro r hr
        have := List.of_mem_filter hr
        simpa using this
      rw [habs _ d h2]
      exact ⟨rfl, rfl, hclean⟩
    · have h0 : store.any (fun r => r.id == d) = false := by simpa using h
      have hfind0 : getByDeviceId store d = none := by
        rw [getByDeviceId, List.find?_eq_none]
        intro r hr
        have := List.any_eq_false.mp h0 r hr
        simpa using this
      rw [habs store d h0]
      rw [habs store d h0]
      exact ⟨rfl, rfl, hfind0⟩

/-- C8 witness: both parts at concrete inputs. -/
theorem c8_witness :
    (getByDeviceId [] "d1" = none ∧
      (deleteAvailability none [] "d1").1.success = true ∧
      (deleteAvailability none [] "d1").2 = []) ∧
    ((deleteAvailability none [⟨"d1", "d1", "Available", none, 0, 0⟩] "d1").1.success = true ∧
      (deleteAvailability none
        (deleteAvailability none [⟨"d1", "d1", "Available", none, 0, 0⟩] "d1").2 "d1").1.success
        = true ∧
      getByDeviceId (deleteAvailability none
        (deleteAvailability none [⟨"d1", "d1", "Available", none, 0, 0⟩] "d1").2 "d1").2 "d1"
        = none) :=
  ⟨⟨by decide, c8_delete_idempotent.1 [] "d1" (by decide)⟩,
    c8_delete_idempotent.2 [⟨"d1", "d1", "Available", none, 0, 0⟩] "d1"⟩

/-- C5: create and update fail with a field-tagged validation error exactly
when the device id is blank after trimming or the effective status lies
outside the closed enumeration; create defaults the status to Available
and stamps both timestamps to now. -/
theorem c5_validation :
    (∀ (p : CreateDeviceAvailabilityParams) (now : Nat),
      ((∃ e, createDeviceAvailability p now = .error e) ↔
        (jsTrim p.deviceId = "" ∨ (p.status.getD "Available") ∉ availabilityStatusValues)) ∧
      (∀ e, createDeviceAvailability p now = .error e →
        (jsTrim p.deviceId = "" → e.field = "deviceId") ∧
        (jsTrim p.deviceId ≠ "" → e.field = "status")) ∧
      (∀ rec, createDeviceAvailability p now = .ok rec →
        rec.status = p.status.getD "Available" ∧
        rec.lastCheckedAt = now ∧ rec.updatedAt = now)) ∧
    (∀ (existing : DeviceAvailability) (params : UpdateDeviceAvailabilityParams) (now : Nat),
      ((∃ e, updateDeviceAvailability existing params now = .error e) ↔
        (jsTrim existing.deviceId = "" ∨
          (params.status.getD existing.status) ∉ availabilityStatusValues)) ∧
      (∀ e, updateDeviceAvailability existing params now = .error e →
        (jsTrim existing.deviceId = "" → e.field = "deviceId") ∧
        (jsTrim existing.deviceId ≠ "" → e.field = "status"))) := by
  constructor
  · intro p now
    by_cases hd : jsTrim p.deviceId = ""
    · have hv := validate_fail_device p.deviceId (p.status.getD "Available") hd
      refine ⟨?_, ?_, ?_⟩
      · simp [createDeviceAvailability, hv, hd]
      · intro e he
        simp [createDeviceAvailability, hv] at he
        constructor
        · intro _
          rw [← he]
        · intro hcontra
          exact absurd hd hcontra
      · intro rec hrec
        simp [createDeviceAvailability, hv] at hrec
    · by_cases hs : (p.status.getD "Available") ∈ availabilityStatusValues
      · have hv := validate_ok p.deviceId (p.status.getD "Available") hd hs
        refine ⟨?_, ?_, ?_⟩
        · simp [createDeviceAvailability, hv, hd, hs]
        · intro e he
          simp [createDeviceAvailability, hv] at he
        · intro rec hrec
          simp [createDeviceAvailability, hv] at hrec
          rw [← hrec]
          exact ⟨rfl, rfl, rfl⟩
      · have hv := validate_fail_status p.deviceId (p.status.getD "Available") hd hs
        refine ⟨?_, ?_, ?_⟩
        · simp [createDeviceAvailability, hv, hs]
        · intro e he
          simp [createDeviceAvailability, hv] at he
          constructor
          · intro hcontra
            exact absurd hcontra hd
          · intro _
            rw [← he]
        · intro rec hrec
          simp [createDeviceAvailability, hv] at hrec
  · intro existing params now
    by_cases hd : jsTrim existing.deviceId = ""
    · have hv := validate_fail_device existing.deviceId (params.status.getD existing.status) hd
      refine ⟨?_, ?_⟩
      · simp [updateDeviceAvailability, hv, hd]
      · intro e he
        simp [updateDeviceAvailability, hv] at he
        constructor
        · intro _
          rw [← he]
        · intro hcontra
          exact absurd hd hcontra
    · by_cases hs : (params.status.getD existing.status) ∈ availabilityStatusValues
      · have hv := validate_ok existing.deviceId (params.status.getD existing.status) hd hs
        refine ⟨?_, ?_⟩
        · simp [updateDeviceAvailability, hv, hd, hs]
        · intro e he
          simp [updateDeviceAvailability, hv] at he
      · have hv := validate_fail_status existing.deviceId
          (params.status.getD existing.status) hd hs
        refine ⟨?_, ?_⟩
        · simp [updateDeviceAvailability, hv, hs]
        · intro e he
          simp [updateDeviceAvailability, hv] at he
          constructor
          · intro hcontra
            exact absurd hcontra hd
          · intro _
            rw [← he]

/-- C5 witness: the theorem instantiated at concrete inputs — a valid
create that defaults the status and stamps the timestamps, and a blank
device id whose error is tagged with the deviceId field. -/
theorem c5_witness :
    ((⟨"d1", "d1", "Available", none, 7, 7⟩ : DeviceAvailability).status = "Available" ∧
      (⟨"d1", "d1", "Available", none, 7, 7⟩ : DeviceAvailability).lastCheckedAt = 7 ∧
      (⟨"d1", "d1", "Available", none, 7, 7⟩ : DeviceAvailability).updatedAt = 7) ∧
    (⟨"deviceId", "Device ID must be a non-empty string."⟩ : DeviceAvailabilityError).field
      = "deviceId" :=
  ⟨(c5_validation.1 ⟨"d1", none, none⟩ 7).2.2 ⟨"d1", "d1", "Available", none, 7, 7⟩ rfl,
   ((c5_validation.1 ⟨"  ", some "Available", none⟩ 0).2.1
      ⟨"deviceId", "Device ID must be a non-empty string."⟩ rfl).1 (by decide)⟩

/-- C4 counterexample: an explicit empty-string reservationId does not
clear the field — the update stores the empty string instead of removing
the reservation reference. -/
theorem c4_counterexample :
    (updateDeviceAvailability ⟨"d1", "d1", "Available", some "R1", 0, 0⟩
        ⟨none, ResParam.value ""⟩ 5).map DeviceAvailability.reservationId =
      Except.ok (some "") ∧
    (some "" : Option String) ≠ none := by
  constructor
  · rfl
  · decide

/-- C4 amended: for a record whose device id survives trimming and an
effective status inside the enumeration, the update succeeds; the
reservationId is kept when the parameter is omitted, cleared only on the
explicit null, and replaced by any provided string (including the empty
string); both timestamps are always refreshed, and a fully omitted no-op
update on a well-formed record never fails. -/
theorem c4_amended :
    (∀ (existing : DeviceAvailability) (params : UpdateDeviceAvailabilityParams) (now : Nat),
      jsTrim existing.deviceId ≠ "" →
      (params.status.getD existing.status) ∈ availabilityStatusValues →
      updateDeviceAvailability existing params now =
        .ok { existing with
              status := params.status.getD existing.status
              reservationId := applyResParam params.reservationId existing.reservationId
              lastCheckedAt := now
              updatedAt := now } ∧
      applyResParam ResParam.omitted existing.reservationId = existing.reservationId ∧
      applyResParam ResParam.nullValue existing.reservationId = none ∧
      (∀ s, applyResParam (ResParam.value s) existing.reservationId = some s)) ∧
    (∀ (existing : DeviceAvailability) (now : Nat), wellFormed existing = true →
      updateDeviceAvailability existing ⟨none, ResParam.omitted⟩ now =
        .ok { existing with
              status := existing.status
              reservationId := existing.reservationId
              lastCheckedAt := now
              updatedAt := now }) := by
  constructor
  · intro existing params now hd hs
    refine ⟨?_, rfl, rfl, fun s => rfl⟩
    simp [updateDeviceAvailability, validate_ok existing.deviceId _ hd hs]
  · intro existing now hwf
    obtain ⟨hd, hs⟩ := (wellFormed_iff existing).mp hwf
    simp [updateDeviceAvailability, validate_ok existing.deviceId _ hd hs, applyResParam]

/-- C4 witness: the amended theorem applied at a concrete record with each
of the three parameter shapes represented through applyResParam. -/
theorem c4_witness :
    updateDeviceAvailability ⟨"d1", "d1", "Available", some "R1", 0, 0⟩
        ⟨some "Maintenance", ResParam.nullValue⟩ 9 =
      Except.ok ⟨"d1", "d1", "Maintenance", none, 9, 9⟩ ∧
    updateDeviceAvailability ⟨"d1", "d1", "Available", some "R1", 0, 0⟩
        ⟨none, ResParam.omitted⟩ 9 =
      Except.ok ⟨"d1", "d1", "Available", some "R1", 9, 9⟩ :=
  ⟨((c4_amended.1 ⟨"d1", "d1", "Available", some "R1", 0, 0⟩
      ⟨some "Maintenance", ResParam.nullValue⟩ 9 (by decide) (by decide)).1 : _),
   (c4_amended.2 ⟨"d1", "d1", "Available", some "R1", 0, 0⟩ 9 (by decide) : _)⟩

/-- C9 counterexample: a device id with surrounding whitespace yields a
record whose id field (the raw input) differs from its deviceId field (the
trimmed input). -/
theorem c9_counterexample :
    (createDeviceAvailability ⟨" d1", some "Available", none⟩ 0).map
        (fun r => (r.id, r.deviceId)) = Except.ok (" d1", "d1") ∧
    (" d1" : String) ≠ "d1" := by
  constructor
  · rfl
  · decide

/-- C9 amended: a created record has id equal to the raw input device id
and deviceId equal to its trimmed form, so the two coincide whenever the
input carries no surrounding whitespace; updates preserve both fields. -/
theorem c9_amended :
    (∀ (p : CreateDeviceAvailabilityParams) (now : Nat) (rec : DeviceAvailability),
      createDeviceAvailability p now = .ok rec →
      rec.id = p.deviceId ∧ rec.deviceId = jsTrim p.deviceId ∧
      (jsTrim p.deviceId = p.deviceId → rec.id = rec.deviceId)) ∧
    (∀ (existing : DeviceAvailability) (params : UpdateDeviceAvailabilityParams) (now : Nat)
      (rec : DeviceAvailability),
      updateDeviceAvailability existing params now = .ok rec →
      rec.id = existing.id ∧ rec.deviceId = existing.deviceId) := by
  constructor
  · intro p now rec hrec
    cases hv : validateDeviceAvailability p.deviceId (p.status.getD "Available") with
    | error e =>
      simp [createDeviceAvailability, hv] at hrec
    | ok u =>
      simp [createDeviceAvailability, hv] at hrec
      rw [← hrec]
      refine ⟨rfl, rfl, ?_⟩
      intro ht
      simpa using ht.symm
  · intro existing params now rec hrec
    cases hv : validateDeviceAvailability existing.deviceId
        (params.status.getD existing.status) with
    | error e =>
      simp [updateDeviceAvailability, hv] at hrec
    | ok u =>
      simp [updateDeviceAvailability, hv] at hrec
      rw [← hrec]
      exact ⟨rfl, rfl⟩

/-- C9 witness: the amended theorem applied at a trimmed and an untrimmed
concrete input and at a concrete update. -/
theorem c9_witness :
    ((⟨"d1", "d1", "Available", none, 0, 0⟩ : DeviceAvailability).id = "d1" ∧
      (⟨"d1", "d1", "Available", none, 0, 0⟩ : DeviceAvailability).deviceId = jsTrim "d1") ∧
    ((⟨"d1", "d1", "Maintenance", none, 4, 4⟩ : DeviceAvailability).id = "d1" ∧
      (⟨"d1", "d1", "Maintenance", none, 4, 4⟩ : DeviceAvailability).deviceId = "d1") :=
  ⟨(fun h => ⟨h.1, h.2.1⟩)
    (c9_amended.1 ⟨"d1", some "Available", none⟩ 0 ⟨"d1", "d1", "Available", none, 0, 0⟩ rfl),
   c9_amended.2 ⟨"d1", "d1", "Available", none, 0, 0⟩ ⟨some "Maintenance", ResParam.omitted⟩ 4
     ⟨"d1", "d1", "Maintenance", none, 4, 4⟩ rfl⟩

theorem updateStatus_dichotomy (fail : FailSpec) (store : List DeviceAvailability)
    (now : Nat) (d S : String) (R : ResParam) :
    ((updateAvailabilityStatus fail store now d S R).result.success = true ∧
      (updateAvailabilityStatus fail store now d S R).result.code = none) ∨
    ((updateAvailabilityStatus fail store now d S R).result.success = false ∧
      (updateAvailabilityStatus fail store now d S R).result.code
        = some "INTERNAL_ERROR") := by
  cases hc : updateAvailabilityStatusCore fail store now d S R with
  | ok v =>
    obtain ⟨s2, sv, ev, sa⟩ := v
    left
    simp [updateAvailabilityStatus, hc]
  | error v =>
    obtain ⟨msg, s2, sv⟩ := v
    right
    simp [updateAvailabilityStatus, hc]

/-- C10: the reconciliation use case never surfaces an exception — every
outcome is either a success with no code or a failure whose code is
INTERNAL_ERROR (never NOT_FOUND, never VALIDATION_ERROR) — so the
reservation adapter never reaches its NOT_FOUND suppression branch and
every failed update ends in a redelivery throw. -/
theorem c10_internal_error_only :
    (∀ (fail : FailSpec) (store : List DeviceAvailability) (now : Nat) (d S : String)
      (R : ResParam),
      (((updateAvailabilityStatus fail store now d S R).result.success = true ∧
        (updateAvailabilityStatus fail store now d S R).result.code = none) ∨
      ((updateAvailabilityStatus fail store now d S R).result.success = false ∧
        (updateAvailabilityStatus fail store now d S R).result.code
          = some "INTERNAL_ERROR")) ∧
      (updateAvailabilityStatus fail store now d S R).result.code ≠ some "NOT_FOUND" ∧
      (updateAvailabilityStatus fail store now d S R).result.code
        ≠ some "VALIDATION_ERROR") ∧
    (∀ (fail : FailSpec) (store : List DeviceAvailability) (now : Nat) (t : String)
      (dta : Option ReservationEventData),
      (handleReservationEvent fail store now t dta).1
        ≠ ReservationOutcome.suppressedNotFound) ∧
    (∀ (fail : FailSpec) (store : List DeviceAvailability) (now : Nat) (t : String)
      (d0 : ReservationEventData) (st : String) (cl : Bool),
      d0.deviceId ≠ "" →
      getAvailabilityFromEvent t = some (st, cl) →
      (updateAvailabilityStatus fail store now d0.deviceId st
          (if cl then ResParam.nullValue else ResParam.value d0.reservationId)).result.success
        = false →
      (handleReservationEvent fail store now t (some d0)).1 =
        ReservationOutcome.threw
          ("Failed to update device " ++ d0.deviceId ++ ": " ++
            ((updateAvailabilityStatus fail store now d0.deviceId st
              (if cl then ResParam.nullValue
               else ResParam.value d0.reservationId)).result.error.getD "undefined"))) := by
  refine ⟨?_, ?_, ?_⟩
  · intro fail store now d S R
    rcases updateStatus_dichotomy fail store now d S R with ⟨hs, hc⟩ | ⟨hs, hc⟩
    · exact ⟨Or.inl ⟨hs, hc⟩, by simp [hc], by simp [hc]⟩
    · exact ⟨Or.inr ⟨hs, hc⟩, by simp [hc], by simp [hc]⟩
  · intro fail store now t dta
    cases dta with
    | none => simp [handleReservationEvent]
    | some d0 =>
      by_cases hdev : (d0.deviceId == "") = true
      · simp [handleReservationEvent, hdev]
      · have hdev2 : (d0.deviceId == "") = false := by simpa using hdev
        cases hmap : getAvailabilityFromEvent t with
        | none => simp [handleReservationEvent, hdev2, hmap]
        | some pr =>
          obtain ⟨st, cl⟩ := pr
          rcases updateStatus_dichotomy fail store now d0.deviceId st
              (if cl then ResParam.nullValue else ResParam.value d0.reservationId) with
            ⟨hs, hc⟩ | ⟨hs, hc⟩
          · simp [handleReservationEvent, hdev2, hmap, hs]
          · simp [handleReservationEvent, hdev2, hmap, hs, hc]
  · intro fail store now t d0 st cl hdev hmap hfail
    have hdev2 : (d0.deviceId == "") = false := by simpa using hdev
    rcases updateStatus_dichotomy fail store now d0.deviceId st
        (if cl then ResParam.nullValue else ResParam.value d0.reservationId) with
      ⟨hs, hc⟩ | ⟨hs, hc⟩
    · rw [hs] at hfail
      cases hfail
    · simp [handleReservationEvent, hdev2, hmap, hs, hc]

/-- C10 witness: at a concrete store failure the result carries code
INTERNAL_ERROR and the adapter throws for redelivery. -/
theorem c10_witness :
    (((updateAvailabilityStatus ⟨some "db down", none, none⟩ [] 0 "D1" "Unavailable"
          (ResParam.value "R1")).result.success = true ∧
      (updateAvailabilityStatus ⟨some "db down", none, none⟩ [] 0 "D1" "Unavailable"
          (ResParam.value "R1")).result.code = none) ∨
    ((updateAvailabilityStatus ⟨some "db down", none, none⟩ [] 0 "D1" "Unavailable"
          (ResParam.value "R1")).result.success = false ∧
      (updateAvailabilityStatus ⟨some "db down", none, none⟩ [] 0 "D1" "Unavailable"
          (ResParam.value "R1")).result.code = some "INTERNAL_ERROR")) ∧
    (handleReservationEvent ⟨some "db down", none, none⟩ [] 0 "Reservation.Created"
        (some ⟨"R1", "D1"⟩)).1 =
      ReservationOutcome.threw "Failed to update device D1: db down" :=
  ⟨((c10_internal_error_only.1 ⟨some "db down", none, none⟩ [] 0 "D1" "Unavailable"
      (ResParam.value "R1")).1 : _),
   (c10_internal_error_only.2.2 ⟨some "db down", none, none⟩ [] 0 "Reservation.Created"
      ⟨"R1", "D1"⟩ "Unavailable" false (by decide) (by decide) (by decide) : _)⟩

theorem dispatchStep_eq_map (busFail : String → Option String) (now : Nat)
    (st : List OutboxMessage) (m : OutboxMessage) :
    dispatchStep busFail now st m = st.map (perMessage busFail now m) := by
  cases h : busFail m.id <;>
    simp [dispatchStep, h, markAsProcessed, markAsFailed, perMessage]

theorem foldl_dispatch_eq_map (busFail : String → Option String) (now : Nat)
    (msgs : List OutboxMessage) :
    ∀ st : List OutboxMessage,
      msgs.foldl (dispatchStep busFail now) st =
        st.map (fun r => msgs.foldl (fun r m => perMessage busFail now m r) r) := by
  induction msgs with
  | nil =>
    intro st
    simp
  | cons m ms ih =>
    intro st
    rw [List.foldl_cons, dispatchStep_eq_map, ih, List.map_map]
    rfl

theorem perMessage_skip (busFail : String → Option String) (now : Nat)
    (m r : OutboxMessage) (h : r.id ≠ m.id) : perMessage busFail now m r = r := by
  simp [perMessage, h]

theorem perMessage_id (busFail : String → Option String) (now : Nat)
    (m r : OutboxMessage) : (perMessage busFail now m r).id = r.id := by
  by_cases h : r.id = m.id <;> cases hb : busFail m.id <;> simp [perMessage, h, hb]

theorem foldl_perMessage_untouched (busFail : String → Option String) (now : Nat)
    (msgs : List OutboxMessage) (r : OutboxMessage) (h : ∀ m ∈ msgs, m.id ≠ r.id) :
    msgs.foldl (fun r m => perMessage busFail now m r) r = r := by
  induction msgs with
  | nil => rfl
  | cons m ms ih =>
    rw [List.foldl_cons]
    rw [perMessage_skip busFail now m r (fun he => (h m (by simp)) he.symm)]
    exact ih (fun m2 hm2 => h m2 (by simp [hm2]))

theorem foldl_perMessage_hit (busFail : String → Option String) (now : Nat)
    (l1 l2 : List OutboxMessage) (m r : OutboxMessage)
    (h1 : ∀ m2 ∈ l1, m2.id ≠ r.id) (h2 : ∀ m2 ∈ l2, m2.id ≠ r.id) :
    (l1 ++ m :: l2).foldl (fun r m => perMessage busFail now m r) r =
      perMessage busFail now m r := by
  rw [List.foldl_append, foldl_perMessage_untouched busFail now l1 r h1, List.foldl_cons]
  refine foldl_perMessage_untouched busFail now l2 _ ?_
  intro m2 hm2
  rw [perMessage_id]
  exact h2 m2 hm2

/-- C3 counterexample: a bus failure whose thrown error carries an empty
message leaves the message with retryCount incremented but an empty —
not non-empty — error string. -/
theorem c3_counterexample :
    ((processOutbox (fun _ => some "") [⟨"m1", "Availability", "Availability.Changed", "D1",
        "payload", "1.0", 0, false, none, none, 0⟩] 7).1).map
        (fun m => (m.processed, m.retryCount, m.error)) = [(false, 1, some "")] ∧
    ("" : String).length = 0 := by
  constructor
  · decide
  · decide

/-- C3 amended: a drain fetches at most 20 unprocessed messages and, for
each fetched message independently of the outcomes of the others, marks it
processed on bus success, and on bus failure leaves it unprocessed with
retryCount incremented by exactly one and error set to the message the bus
reported (non-empty whenever that reported message is non-empty). -/
theorem c3_amended (busFail : String → Option String) (store : List OutboxMessage)
    (now : Nat) (hnd : (store.map OutboxMessage.id).Nodup) :
    (listUnprocessed store 20).length ≤ 20 ∧
    ∀ m ∈ listUnprocessed store 20,
      m.processed = false ∧
      (busFail m.id = none →
        { m with processed := true, processedAt := some now } ∈
          (processOutbox busFail store now).1) ∧
      (∀ err, busFail m.id = some err →
        { m with error := some err, retryCount := m.retryCount + 1 } ∈
          (processOutbox busFail store now).1) := by
  constructor
  · simp [listUnprocessed, List.length_take]
  · intro m hm
    have hm_filter : m ∈ store.filter (fun m => !m.processed) := List.mem_of_mem_take hm
    have hm_store : m ∈ store := List.mem_of_mem_filter hm_filter
    have hproc : m.processed = false := by
      have := List.of_mem_filter hm_filter
      simpa using this
    have hsub : List.Sublist (listUnprocessed store 20) store :=
      List.Sublist.trans (List.take_sublist _ _) (List.filter_sublist _)
    have hndmsg : ((listUnprocessed store 20).map OutboxMessage.id).Nodup :=
      hnd.sublist (hsub.map OutboxMessage.id)
    obtain ⟨l1, l2, hsplit⟩ := List.append_of_mem hm
    have hndmsg2 := hndmsg
    rw [hsplit, List.map_append, List.map_cons, List.nodup_append] at hndmsg2
    obtain ⟨hnd1, hnd2, hdisj⟩ := hndmsg2
    have hl2 : ∀ m2 ∈ l2, m2.id ≠ m.id := by
      intro m2 hm2 he
      exact (List.nodup_cons.mp hnd2).1 (he ▸ List.mem_map_of_mem OutboxMessage.id hm2)
    have hl1 : ∀ m2 ∈ l1, m2.id ≠ m.id := by
      intro m2 hm2 he
      exact hdisj (he ▸ List.mem_map_of_mem OutboxMessage.id hm2) (List.mem_cons_self _ _)
    have hfold : (processOutbox busFail store now).1 =
        store.map (fun r => (listUnprocessed store 20).foldl
          (fun r m => perMessage busFail now m r) r) := by
      show (listUnprocessed store 20).foldl (dispatchStep busFail now) store = _
      exact foldl_dispatch_eq_map busFail now (listUnprocessed store 20) store
    have hFm : (listUnprocessed store 20).foldl
        (fun r m => perMessage busFail now m r) m = perMessage busFail now m m := by
      rw [hsplit]
      exact foldl_perMessage_hit busFail now l1 l2 m m hl1 hl2
    refine ⟨hproc, ?_, ?_⟩
    · intro hbus
      have hpm : perMessage busFail now m m =
          { m with processed := true, processedAt := some now } := by
        simp [perMessage, hbus]
      rw [hfold, ← hpm, ← hFm]
      exact List.mem_map_of_mem _ hm_store
    · intro err hbus
      have hpm : perMessage busFail now m m =
          { m with error := some err, retryCount := m.retryCount + 1 } := by
        simp [perMessage, hbus]
      rw [hfold, ← hpm, ← hFm]
      exact List.mem_map_of_mem _ hm_store

/-- C3 witness: a two-message batch in which the first publish succeeds and
the second fails; both outcomes are recorded independently. -/
theorem c3_witness :
    (⟨"m1", "Availability", "Availability.Changed", "D1", "a", "1.0", 0, true, some 9, none, 0⟩
        : OutboxMessage) ∈
      (processOutbox (fun i => if i = "m2" then some "boom" else none)
        [⟨"m1", "Availability", "Availability.Changed", "D1", "a", "1.0", 0, false, none, none, 0⟩,
         ⟨"m2", "Availability", "Availability.Changed", "D2", "b", "1.0", 0, false, none, none, 0⟩]
        9).1 ∧
    (⟨"m2", "Availability", "Availability.Changed", "D2", "b", "1.0", 0, false, none,
        some "boom", 1⟩ : OutboxMessage) ∈
      (processOutbox (fun i => if i = "m2" then some "boom" else none)
        [⟨"m1", "Availability", "Availability.Changed", "D1", "a", "1.0", 0, false, none, none, 0⟩,
         ⟨"m2", "Availability", "Availability.Changed", "D2", "b", "1.0", 0, false, none, none, 0⟩]
        9).1 :=
  have h := c3_amended (fun i => if i = "m2" then some "boom" else none)
    [⟨"m1", "Availability", "Availability.Changed", "D1", "a", "1.0", 0, false, none, none, 0⟩,
     ⟨"m2", "Availability", "Availability.Changed", "D2", "b", "1.0", 0, false, none, none, 0⟩]
    9 (by decide)
  ⟨((h.2 ⟨"m1", "Availability", "Availability.Changed", "D1", "a", "1.0", 0, false, none, none, 0⟩
      (by decide)).2.1 (by decide) : _),
   ((h.2 ⟨"m2", "Availability", "Availability.Changed", "D2", "b", "1.0", 0, false, none, none, 0⟩
      (by decide)).2.2 "boom" (by decide) : _)⟩
